import Mathlib

/-!
Verification of the agent-routing state machine and tool-dispatch layer of
the writer repository (src/agent_base.py, src/graph.py, src/agent.py).

The conversation data model and the SystemHelper methods are embedded from
src/graph.py; the two role nodes, the tool registry and the graph wiring
from src/agent.py.  The model endpoint (ChatOpenAI in src/agent_base.py) is
a single blocking network call excluded from the core by the spec, so a
Role Step receives the model as an explicit function argument
(a ModelCaller); a Python exception raised by the call is an
Except.error carrying str(e).  LangGraph itself (StateGraph, Command) is an
external dependency, so the routing loop that applies a directive is
modelled from the spec where noted.
-/

namespace Writer

/-- One entry of an AIMessage's tool_calls list as read by
SystemHelper.invoke_tool in src/graph.py: tool_call.get("name"),
tool_call.get("args", \x7b\x7d), tool_call.get("id"). -/
structure ToolCall where
  name : String
  args : List (String × String)
  id : String
deriving DecidableEq, Repr

/-- The message union of src/graph.py line 11:
AiMessage = Union[SystemMessage, HumanMessage, AIMessage, ToolMessage].
An AIMessage carries its (possibly empty) tool_calls list; a ToolMessage
carries the tool_call_id it answers. -/
inductive Message where
  | system (content : String)
  | human (content : String)
  | ai (content : String) (tool_calls : List ToolCall)
  | tool (content : String) (tool_call_id : String)
deriving DecidableEq, Repr

/-- GraphState of src/graph.py lines 12-14: the shared LangGraph state,
tracking all messages of the conversation. -/
structure GraphState where
  messages : List Message
deriving DecidableEq, Repr

/-- A registered tool as SystemHelper._call_tool uses it: invoke takes the
argument dict and returns text; a raising implementation is an
Except.error carrying str(e). -/
structure Tool where
  invoke : List (String × String) → Except String String

/-- The tool registry of src/agent.py lines 53-55: a mapping
tool name → function reference. -/
def ToolRegistry : Type := List (String × Tool)

/-- The model call of AgentBase.call (src/agent_base.py line 38): the full
message sequence goes to the endpoint, which answers with one AIMessage
(its content and its tool_calls) or raises. -/
def ModelCaller : Type := List Message → Except String (String × List ToolCall)

/-- The two exception classes that can leave SystemHelper._call_tool
(src/graph.py lines 26-33): the NameError it raises itself for an
unregistered name, and an exception propagated out of the tool
implementation. -/
inductive DispatchError where
  | toolNotFound (tool_name : String)
  | toolExecution (msg : String)
deriving DecidableEq, Repr

/-- str(e) of a DispatchError: the NameError text of src/graph.py line 29,
or the propagated implementation error. -/
def DispatchError.toMessage : DispatchError → String
  | .toolNotFound tool_name => "⚠️ Tool " ++ tool_name ++ " not found in registry"
  | .toolExecution msg => msg

/-- SystemHelper of src/graph.py lines 18-21: holds the llm and the tool
registry given to __init__. -/
structure SystemHelper where
  llm : ModelCaller
  tool_registry : ToolRegistry

/-- SystemHelper._call_agent (src/graph.py lines 23-24). -/
def SystemHelper.call_agent (self : SystemHelper) (messages : List Message) :
    Except String (String × List ToolCall) :=
  self.llm messages

/-- SystemHelper._call_tool (src/graph.py lines 26-33): raises NameError
when the name is not registered, otherwise invokes the registered function
and returns one ToolMessage echoing the call id; an exception raised by the
implementation propagates. -/
def SystemHelper.call_tool (self : SystemHelper) (tool_name : String)
    (tool_args : List (String × String)) (call_id : String) :
    Except DispatchError (List Message) :=
  match self.tool_registry.lookup tool_name with
  | none => .error (.toolNotFound tool_name)
  | some tool =>
    match tool.invoke tool_args with
    | .ok output => .ok [Message.tool output call_id]
    | .error e => .error (.toolExecution e)

/-- SystemHelper.invoke (src/graph.py lines 36-43): appends the model
response, or on any exception appends AIMessage(content=str(e)). -/
def SystemHelper.invoke (self : SystemHelper) (state : GraphState) : GraphState :=
  match self.call_agent state.messages with
  | .ok response => { state with messages := state.messages ++ [Message.ai response.1 response.2] }
  | .error e => { state with messages := state.messages ++ [Message.ai e []] }

/-- SystemHelper.invoke_tool (src/graph.py lines 45-67): reads the last
message (none on an empty list models the IndexError of messages[-1]);
without tool calls the state comes back unchanged; otherwise only the
first tool call is dispatched, a success appending its ToolMessage and an
exception appending AIMessage(content=str(e)). -/
def SystemHelper.invoke_tool (self : SystemHelper) (state : GraphState) :
    Option GraphState :=
  let messages := state.messages
  match messages.getLast? with
  | none => none
  | some last_msg =>
    match last_msg with
    | Message.ai _ (tool_call :: _) =>
      match self.call_tool tool_call.name tool_call.args tool_call.id with
      | .ok response => some { state with messages := state.messages ++ response }
      | .error e =>
        some { state with messages := state.messages ++ [Message.ai (DispatchError.toMessage e) []] }
    | _ => some { messages := messages }

/-- Modelled from the spec: the prompt text of agent_base.py is excluded
from the core ("The surrounding prompt text, model connection details, and
CLI-style input/output are excluded as external collaborators"), so
WORLD_LIBRARIAN_PROMPT stands in with its opening line; no claim depends
on the prompt wording. -/
def WORLD_LIBRARIAN_PROMPT : String := "You are the World Librarian."

/-- Modelled from the spec: stand-in for WORLD_GENERATOR_PROMPT of
agent_base.py, excluded from the core like WORLD_LIBRARIAN_PROMPT. -/
def WORLD_GENERATOR_PROMPT : String := "You are the World Generator."

/-- The calculator tool body of src/agent.py lines 37-45: it returns the
expression string itself. -/
def calculator (expression : String) : String :=
  expression

/-- The langchain @tool wrapper around calculator as the registry stores
it.  Modelled from the spec: the wrapper itself is external ("each tool is
an external capability exposing name, argument schema, invoke"); it reads
the one declared argument "expression" and applies calculator, failing
when the argument is absent. -/
def calculatorTool : Tool :=
  { invoke := fun tool_args =>
      match tool_args.lookup "expression" with
      | some expression => .ok (calculator expression)
      | none => .error "validation error: missing argument expression" }

/-- tool_registry of src/agent.py lines 53-55: tool name → function
reference, for the one registered tool. -/
def tool_registry : ToolRegistry := [("calculator", calculatorTool)]

/-- marshall of src/agent.py line 61: SystemHelper(llm, tools=tool_registry),
with the model endpoint abstracted as the ModelCaller argument. -/
def marshall (llm : ModelCaller) : SystemHelper :=
  { llm := llm, tool_registry := tool_registry }

/-- The node names of the routing graph of src/agent.py lines 100-113
("agent" runs generator, "librarian" runs librarian) together with END. -/
inductive Goto where
  | agent
  | librarian
  | «END»
deriving DecidableEq, Repr

/-- The langgraph Command a node returns: an optional messages delta and
the next node.  The spec calls this the RouterDirective. -/
structure Command where
  update : Option (List Message)
  goto : Goto
deriving DecidableEq, Repr

/-- generator of src/agent.py lines 68-80: runs marshall.invoke, reads the
last message as the response (none models the IndexError of
state["messages"][-1] on an empty conversation, which cannot occur since
invoke always appends), and returns Command(update=[SystemMessage(
WORLD_LIBRARIAN_PROMPT), response], goto="librarian"). -/
def generator (llm : ModelCaller) (state : GraphState) : Option Command :=
  let state1 := (marshall llm).invoke state
  match state1.messages.getLast? with
  | none => none
  | some response =>
    some { update := some [Message.system WORLD_LIBRARIAN_PROMPT, response],
           goto := Goto.librarian }

/-- librarian of src/agent.py lines 83-93: collects one external input
(the ask argument), runs marshall.invoke on the prior messages extended
with HumanMessage(ask) and prints its last message, then returns
Command(goto=END) with no update.  The invoked state is returned alongside
the Command so the conversation the step computes (and prints) is
observable in the embedding. -/
def librarian (llm : ModelCaller) (state : GraphState) (ask : String) :
    GraphState × Command :=
  let invoked := (marshall llm).invoke { messages := state.messages ++ [Message.human ask] }
  (invoked, { update := none, goto := Goto.END })

/-- Modelled from the spec: the Router applies a directive's update as a
partial state delta to the append-only ConversationState ("returns a new
state equal to the prior sequence plus the given messages, in order"); the
application machinery lives in the external LangGraph dependency, not
under src/. -/
def applyUpdate (state : GraphState) : Option (List Message) → GraphState
  | none => state
  | some delta => { messages := state.messages ++ delta }

/-- Modelled from the spec: the Router's transition loop ("after each
RoleNode completes, the Router reads the directive's goto field and
transitions to that node, or halts if goto == TERMINATE"), over the wiring
of src/agent.py lines 100-113; fuel bounds the recursion and none models a
run that does not reach END (or a crashed node). -/
def route (llm : ModelCaller) (ask : String) :
    Nat → Goto → GraphState → Option GraphState
  | 0, _, _ => none
  | _ + 1, Goto.END, state => some state
  | fuel + 1, Goto.agent, state =>
    match generator llm state with
    | none => none
    | some cmd => route llm ask fuel cmd.goto (applyUpdate state cmd.update)
  | fuel + 1, Goto.librarian, state =>
    let step := librarian llm state ask
    route llm ask fuel step.2.goto (applyUpdate state step.2.update)

/-- graph.invoke of src/agent.py line 130: the run starts at the entry
node "agent" and returns the final state once END is reached; fuel 3
covers the acyclic agent → librarian → END wiring. -/
def run (llm : ModelCaller) (ask : String) (init : GraphState) : Option GraphState :=
  route llm ask 3 Goto.agent init

/-- A deterministic stub ModelCaller that always answers with a fixed
content and no tool calls, standing in for the model endpoint in concrete
scenarios. -/
def stubModel : ModelCaller := fun _ => .ok ("A city.", [])

/-- A stub ModelCaller whose endpoint is unreachable: every call raises. -/
def downModel : ModelCaller := fun _ => .error "Connection refused"

/-- The seed conversation of the spec scenario: one System and one Human
message. -/
def seedState : GraphState :=
  { messages := [Message.system "You are a generator", Message.human "Describe a city"] }

/-- A registered tool whose implementation raises on every invocation. -/
def failingTool : Tool := { invoke := fun _ => .error "boom" }

/-- A SystemHelper whose registry holds only the failing tool. -/
def failHelper : SystemHelper :=
  { llm := stubModel, tool_registry := [("boom_tool", failingTool)] }

/-- A conversation whose last message is an Assistant request for the
failing tool. -/
def failState : GraphState :=
  { messages := [Message.ai "" [{ name := "boom_tool", args := [], id := "c1" }]] }

/-- True exactly on Tool messages. -/
def isToolMessage : Message → Bool
  | Message.tool _ _ => true
  | _ => false

/-! ## Helper lemmas -/

/-- A successful model call makes invoke append exactly the Assistant
response. -/
theorem invoke_of_ok (self : SystemHelper) (state : GraphState) (c : String)
    (tc : List ToolCall) (h : self.llm state.messages = .ok (c, tc)) :
    self.invoke state = { messages := state.messages ++ [Message.ai c tc] } := by
  simp [SystemHelper.invoke, SystemHelper.call_agent, h]

/-- A failing model call makes invoke append exactly one diagnostic
Assistant message. -/
theorem invoke_of_err (self : SystemHelper) (state : GraphState) (e : String)
    (h : self.llm state.messages = .error e) :
    self.invoke state = { messages := state.messages ++ [Message.ai e []] } := by
  simp [SystemHelper.invoke, SystemHelper.call_agent, h]

/-- invoke always appends exactly one message, whatever the model does. -/
theorem invoke_appends_one (self : SystemHelper) (state : GraphState) :
    ∃ m : Message, self.invoke state = { messages := state.messages ++ [m] } := by
  cases h : self.llm state.messages with
  | ok response => exact ⟨Message.ai response.1 response.2, by
      cases response with
      | mk c tc => exact invoke_of_ok self state c tc h⟩
  | error e => exact ⟨Message.ai e [], invoke_of_err self state e h⟩

/-- generator always returns a Command whose update is the new System
message for the Librarian followed by the last message of the invoked
state, with goto librarian. -/
theorem generator_eq (llm : ModelCaller) (state : GraphState) :
    ∃ m : Message,
      ((marshall llm).invoke state).messages = state.messages ++ [m] ∧
      generator llm state =
        some { update := some [Message.system WORLD_LIBRARIAN_PROMPT, m],
               goto := Goto.librarian } := by
  obtain ⟨m, hm⟩ := invoke_appends_one (marshall llm) state
  refine ⟨m, by rw [hm], ?_⟩
  simp [generator, hm, List.getLast?_concat]

/-! ## Claim theorems -/

/-- C1: seeding with exactly one System and one Human message, a
successful Generator step returns a directive whose message delta is the
new System message followed by the Assistant response, with goto
librarian; applying the directive appends those two messages, taking the
ConversationState length from 2 to 4. -/
theorem generator_seed_step (llm : ModelCaller) (sp hp c : String) (tc : List ToolCall)
    (h : llm [Message.system sp, Message.human hp] = .ok (c, tc)) :
    ∃ cmd : Command,
      generator llm { messages := [Message.system sp, Message.human hp] } = some cmd ∧
      cmd.update = some [Message.system WORLD_LIBRARIAN_PROMPT, Message.ai c tc] ∧
      cmd.goto = Goto.librarian ∧
      (applyUpdate { messages := [Message.system sp, Message.human hp] } cmd.update).messages =
        [Message.system sp, Message.human hp,
         Message.system WORLD_LIBRARIAN_PROMPT, Message.ai c tc] ∧
      ([Message.system sp, Message.human hp] : List Message).length = 2 ∧
      (applyUpdate { messages := [Message.system sp, Message.human hp] } cmd.update).messages.length = 4 := by
  have hinv := invoke_of_ok (marshall llm)
    { messages := [Message.system sp, Message.human hp] } c tc h
  refine ⟨{ update := some [Message.system WORLD_LIBRARIAN_PROMPT, Message.ai c tc],
            goto := Goto.librarian }, ?_, rfl, rfl, ?_, rfl, ?_⟩ <;>
    simp [generator, hinv, List.getLast?_concat, applyUpdate]

/-- C1 witness: the seed scenario run with the deterministic stub model. -/
theorem generator_seed_step_witness :
    ∃ cmd : Command,
      generator stubModel { messages := [Message.system "You are a generator",
                                         Message.human "Describe a city"] } = some cmd ∧
      cmd.update = some [Message.system WORLD_LIBRARIAN_PROMPT, Message.ai "A city." []] ∧
      cmd.goto = Goto.librarian ∧
      (applyUpdate { messages := [Message.system "You are a generator",
                                  Message.human "Describe a city"] } cmd.update).messages =
        [Message.system "You are a generator", Message.human "Describe a city",
         Message.system WORLD_LIBRARIAN_PROMPT, Message.ai "A city." []] ∧
      ([Message.system "You are a generator", Message.human "Describe a city"] : List Message).length = 2 ∧
      (applyUpdate { messages := [Message.system "You are a generator",
                                  Message.human "Describe a city"] } cmd.update).messages.length = 4 :=
  generator_seed_step stubModel "You are a generator" "Describe a city" "A city." [] rfl

/-- C5: a failing model call inside a Role Step is caught locally: exactly
one Assistant message carrying the diagnostic is appended, and the
Generator step still returns a directive (some Command) with goto
librarian. -/
theorem model_failure_diagnostic (llm : ModelCaller) (state : GraphState) (e : String)
    (h : llm state.messages = .error e) :
    ((marshall llm).invoke state).messages = state.messages ++ [Message.ai e []] ∧
    ∃ cmd : Command, generator llm state = some cmd ∧ cmd.goto = Goto.librarian := by
  have hinv := invoke_of_err (marshall llm) state e h
  refine ⟨by rw [hinv], ?_⟩
  refine ⟨{ update := some [Message.system WORLD_LIBRARIAN_PROMPT, Message.ai e []],
            goto := Goto.librarian }, ?_, rfl⟩
  simp [generator, hinv, List.getLast?_concat]

/-- C5 witness: the unreachable-endpoint stub on the seed conversation. -/
theorem model_failure_diagnostic_witness :
    ((marshall downModel).invoke seedState).messages =
      seedState.messages ++ [Message.ai "Connection refused" []] ∧
    ∃ cmd : Command, generator downModel seedState = some cmd ∧ cmd.goto = Goto.librarian :=
  model_failure_diagnostic downModel seedState "Connection refused" rfl

/-- C7: a ToolCall dispatched successfully produces exactly one Tool
message, whose tool_call_id equals the id of the ToolCall that triggered
it. -/
theorem dispatch_id_correlation (self : SystemHelper) (tool_name : String)
    (tool_args : List (String × String)) (call_id : String) (t : Tool) (output : String)
    (h1 : self.tool_registry.lookup tool_name = some t)
    (h2 : t.invoke tool_args = .ok output) :
    self.call_tool tool_name tool_args call_id = .ok [Message.tool output call_id] := by
  simp [SystemHelper.call_tool, h1, h2]

/-- C7 witness: the spec scenario, dispatching calculator with expression
2+2 under call id c1. -/
theorem dispatch_id_correlation_witness :
    (marshall stubModel).call_tool "calculator" [("expression", "2+2")] "c1" =
      .ok [Message.tool "2+2" "c1"] :=
  dispatch_id_correlation (marshall stubModel) "calculator" [("expression", "2+2")] "c1"
    calculatorTool "2+2" rfl rfl

/-- C2: within a run, every step of the pipeline only appends: invoke adds
exactly one message to any state, the Generator directive carries a delta
whose application extends the prior messages (length grows by the delta
length, nothing altered or removed), the Librarian directive carries no
delta, and run returns the state reached by those appends. -/
theorem run_append_only (llm : ModelCaller) (ask : String) (init : GraphState) :
    (∀ s : GraphState, ∃ m : Message, ((marshall llm).invoke s).messages = s.messages ++ [m]) ∧
    ∃ cmd : Command, ∃ delta : List Message,
      generator llm init = some cmd ∧
      cmd.update = some delta ∧
      (applyUpdate init cmd.update).messages = init.messages ++ delta ∧
      (applyUpdate init cmd.update).messages.length = init.messages.length + delta.length ∧
      (librarian llm (applyUpdate init cmd.update) ask).2.update = none ∧
      run llm ask init = some (applyUpdate init cmd.update) := by
  constructor
  · intro s
    obtain ⟨m, hm⟩ := invoke_appends_one (marshall llm) s
    exact ⟨m, by rw [hm]⟩
  obtain ⟨m, _, hgen⟩ := generator_eq llm init
  refine ⟨{ update := some [Message.system WORLD_LIBRARIAN_PROMPT, m],
            goto := Goto.librarian },
          [Message.system WORLD_LIBRARIAN_PROMPT, m], hgen, rfl, rfl, ?_, rfl, ?_⟩
  · simp [applyUpdate]
  · simp [run, route, hgen, librarian, applyUpdate]

/-- C3 counterexample: with the stub model and the external input from the
spec scenario, the Librarian directive carries no update, so applying it
leaves the run ConversationState exactly as it was — in particular the
resulting state does not contain the new Human message the claim
requires. -/
theorem librarian_no_update_counterexample :
    (librarian stubModel seedState "What is the population?").2.update = none ∧
    applyUpdate seedState
      (librarian stubModel seedState "What is the population?").2.update = seedState ∧
    Message.human "What is the population?" ∉
      (applyUpdate seedState
        (librarian stubModel seedState "What is the population?").2.update).messages := by
  refine ⟨rfl, rfl, by decide⟩

/-- C3 (amended): the Librarian step computes (and prints) a conversation
extending the prior state with exactly one new Human message carrying the
external input followed by exactly one new Assistant message, and its
directive is goto END — but the directive carries no update, so those two
messages never reach the run ConversationState. -/
theorem librarian_step (llm : ModelCaller) (state : GraphState) (ask c : String)
    (tc : List ToolCall)
    (h : llm (state.messages ++ [Message.human ask]) = .ok (c, tc)) :
    (librarian llm state ask).1.messages =
      state.messages ++ [Message.human ask, Message.ai c tc] ∧
    (librarian llm state ask).2.goto = Goto.END ∧
    (librarian llm state ask).2.update = none := by
  have hinv := invoke_of_ok (marshall llm)
    { messages := state.messages ++ [Message.human ask] } c tc h
  refine ⟨?_, rfl, rfl⟩
  simp [librarian, hinv]

/-- C3 witness: the spec scenario input under the stub model. -/
theorem librarian_step_witness :
    (librarian stubModel seedState "What is the population?").1.messages =
      seedState.messages ++ [Message.human "What is the population?", Message.ai "A city." []] ∧
    (librarian stubModel seedState "What is the population?").2.goto = Goto.END ∧
    (librarian stubModel seedState "What is the population?").2.update = none :=
  librarian_step stubModel seedState "What is the population?" "A city." [] rfl

/-- C4 counterexample: boom_tool is registered and its implementation
fails with "boom"; invoke_tool does not crash, but it appends an Assistant
message carrying the error, so the resulting conversation holds no Tool
message at all — the failure is not wrapped into a Tool message as the
claim states. -/
theorem tool_failure_counterexample :
    failHelper.invoke_tool failState =
      some { messages := failState.messages ++ [Message.ai "boom" []] } ∧
    (failState.messages ++ [Message.ai "boom" []]).all
      (fun m => !(isToolMessage m)) = true := by
  exact ⟨rfl, rfl⟩

/-- C4 (amended): when a registered tool implementation fails during
invocation, invoke_tool catches the failure and appends one Assistant
message whose content communicates the error; the exception does not
propagate and the routing loop does not crash (the step still returns a
state). -/
theorem tool_failure_wrapped (self : SystemHelper) (ms : List Message) (content : String)
    (tool_call : ToolCall) (rest : List ToolCall) (t : Tool) (e : String)
    (h1 : self.tool_registry.lookup tool_call.name = some t)
    (h2 : t.invoke tool_call.args = .error e) :
    self.invoke_tool { messages := ms ++ [Message.ai content (tool_call :: rest)] } =
      some { messages := (ms ++ [Message.ai content (tool_call :: rest)]) ++
        [Message.ai e []] } := by
  simp [SystemHelper.invoke_tool, List.getLast?_concat, SystemHelper.call_tool, h1, h2,
        DispatchError.toMessage]

/-- C4 witness: the failing tool scenario at concrete inputs. -/
theorem tool_failure_wrapped_witness :
    failHelper.invoke_tool { messages :=
        [] ++ [Message.ai "" [{ name := "boom_tool", args := [], id := "c1" }]] } =
      some { messages :=
        ([] ++ [Message.ai "" [{ name := "boom_tool", args := [], id := "c1" }]]) ++
        [Message.ai "boom" []] } :=
  tool_failure_wrapped failHelper [] ""
    { name := "boom_tool", args := [], id := "c1" } [] failingTool "boom" rfl rfl

/-- C6: dispatching a ToolCall whose name is not registered fails with the
toolNotFound-classified NameError before any tool implementation runs, and
invoke_tool catches it and continues, returning a state extended with one
Assistant message carrying the tool-not-found text. -/
theorem unknown_tool_dispatch (self : SystemHelper) (ms : List Message) (content : String)
    (tool_call : ToolCall) (rest : List ToolCall)
    (h : self.tool_registry.lookup tool_call.name = none) :
    self.call_tool tool_call.name tool_call.args tool_call.id =
      .error (DispatchError.toolNotFound tool_call.name) ∧
    self.invoke_tool { messages := ms ++ [Message.ai content (tool_call :: rest)] } =
      some { messages := (ms ++ [Message.ai content (tool_call :: rest)]) ++
        [Message.ai (DispatchError.toMessage (DispatchError.toolNotFound tool_call.name)) []] } := by
  constructor
  · simp [SystemHelper.call_tool, h]
  · simp [SystemHelper.invoke_tool, List.getLast?_concat, SystemHelper.call_tool, h]

/-- C6 witness: the program registry knows only calculator, so the tool
name magic is unregistered. -/
theorem unknown_tool_dispatch_witness :
    (marshall stubModel).call_tool "magic" [] "c9" =
      .error (DispatchError.toolNotFound "magic") ∧
    (marshall stubModel).invoke_tool { messages :=
        [] ++ [Message.ai "" [{ name := "magic", args := [], id := "c9" }]] } =
      some { messages :=
        ([] ++ [Message.ai "" [{ name := "magic", args := [], id := "c9" }]]) ++
        [Message.ai (DispatchError.toMessage (DispatchError.toolNotFound "magic")) []] } :=
  unknown_tool_dispatch (marshall stubModel) [] ""
    { name := "magic", args := [], id := "c9" } [] rfl

/-- C8: invoke_tool dispatches only the first tool call of the last
Assistant message — its result is a function of that first call alone,
independent of the remaining calls — and on an Assistant message carrying
no tool call the step is skipped without error, returning the messages
unchanged. -/
theorem invoke_tool_first_only_and_skip (self : SystemHelper) (ms : List Message)
    (content : String) (tool_call : ToolCall) (rest : List ToolCall) :
    (self.invoke_tool { messages := ms ++ [Message.ai content (tool_call :: rest)] } =
      match self.call_tool tool_call.name tool_call.args tool_call.id with
      | .ok response =>
        some { messages := (ms ++ [Message.ai content (tool_call :: rest)]) ++ response }
      | .error e =>
        some { messages := (ms ++ [Message.ai content (tool_call :: rest)]) ++
          [Message.ai (DispatchError.toMessage e) []] }) ∧
    self.invoke_tool { messages := ms ++ [Message.ai content []] } =
      some { messages := ms ++ [Message.ai content []] } := by
  constructor
  · cases h : self.call_tool tool_call.name tool_call.args tool_call.id <;>
      simp [SystemHelper.invoke_tool, List.getLast?_concat, h]
  · simp [SystemHelper.invoke_tool, List.getLast?_concat]

/-- C9: with the model, the external input and the seed passed as explicit
deterministic values, two runs on identical inputs return identical final
ConversationStates. -/
theorem run_deterministic (llm1 llm2 : ModelCaller) (ask1 ask2 : String)
    (init1 init2 : GraphState)
    (h1 : llm1 = llm2) (h2 : ask1 = ask2) (h3 : init1 = init2) :
    run llm1 ask1 init1 = run llm2 ask2 init2 := by
  rw [h1, h2, h3]

/-- C9 witness: the stubbed scenario run twice. -/
theorem run_deterministic_witness :
    run stubModel "What is the population?" seedState =
      run stubModel "What is the population?" seedState :=
  run_deterministic stubModel stubModel
    "What is the population?" "What is the population?" seedState seedState rfl rfl rfl

/-- C10: the calculator tool returns its expression argument unevaluated,
so dispatching a calculator ToolCall through the program registry yields
one Tool message whose content equals the argument expression. -/
theorem calculator_unevaluated (llm : ModelCaller) (expression call_id : String) :
    calculator expression = expression ∧
    (marshall llm).call_tool "calculator" [("expression", expression)] call_id =
      .ok [Message.tool expression call_id] := by
  exact ⟨rfl, rfl⟩

end Writer
